/-
Verification of the SmartLife_Bot repository against its natural-language
specification.

The development shallowly embeds the Python sources:
  * Application A ("SmartLife Bot"): the `DatabaseManager` task/note
    operations (`src/database/db_manager.py`), the task handler
    (`src/handlers/task_handler.py`), the note relevance search
    (`src/services/note_service.py`), the analytics energy-trend classifier
    (`src/services/analytics_service.py`) and the calendar free-slot finder
    (`src/services/calendar_service.py`).
  * Application B ("aqlli-yordamchi"): the AI classifier fallback
    (`src/processor.py`) and the reminder poller (`src/main.py`).

Database tables are embedded as Lean lists of records; SQLAlchemy row
defaults become structure-field defaults; timestamps are minutes since an
epoch whose day 0 is a Monday (so Python `weekday()` is `day % 7`).
Python strings are Lean `String`s; character-level work (lower-casing,
substring search, parsing) happens on `List Char` via `String.toList`.
-/
import Mathlib

/-! ## Generic helpers (Python built-ins used by the embedded code) -/

/-- Update the first element of a list satisfying `p` (the effect of
mutating the row returned by a SQLAlchemy `query.filter_by(...).first()`
and committing). -/
def updateFirst (p : α → Bool) (f : α → α) : List α → List α
  | [] => []
  | x :: xs => if p x then f x :: xs else x :: updateFirst p f xs

/-- Insert `x` in front of the first element `y` with `le x y`.  Used by
`sortStable`. -/
def insertStable (le : α → α → Bool) (x : α) : List α → List α
  | [] => [x]
  | y :: ys => if le x y then x :: y :: ys else y :: insertStable le x ys

/-- Stable insertion sort: an earlier element precedes any later element it
compares equal to, matching Python's stable `sorted` / `list.sort` and a
deterministic reading of SQL `ORDER BY`.  `le x y` means "`x` may stay in
front of `y`". -/
def sortStable (le : α → α → Bool) : List α → List α
  | [] => []
  | x :: xs => insertStable le x (sortStable le xs)

/-- ASCII lower-casing of a character sequence (Python `str.lower` on the
ASCII inputs this repository manipulates). -/
def lowerL (s : List Char) : List Char := s.map Char.toLower

/-- `pat` occurs as a contiguous substring of `s` (Python `pat in s`,
SQLite `LIKE '%pat%'` after case folding). -/
def containsL (pat : List Char) : List Char → Bool
  | [] => pat.isEmpty
  | c :: rest => pat.isPrefixOf (c :: rest) || containsL pat rest

/-- Auxiliary counter for `pyCount`; the fuel argument is an upper bound on
the number of loop steps (each step consumes at least one character of a
nonempty haystack, so `s.length` fuel is always enough). -/
def pyCountAux (pat : List Char) : Nat → List Char → Nat
  | 0, _ => 0
  | _ + 1, [] => 0
  | fuel + 1, c :: rest =>
    if pat.isPrefixOf (c :: rest) then 1 + pyCountAux pat fuel ((c :: rest).drop pat.length)
    else pyCountAux pat fuel rest

/-- Python `s.count(pat)`: number of non-overlapping occurrences of `pat`
in `s`, scanning left to right.  (`"".count("")` is `len(s)+1` in Python.) -/
def pyCount (s pat : List Char) : Nat :=
  if pat = [] then s.length + 1 else pyCountAux pat s.length s

/-- Python `s.split(sep)` for a single-character separator. -/
def splitOnCharL (sep : Char) : List Char → List (List Char)
  | [] => [[]]
  | c :: rest =>
    let r := splitOnCharL sep rest
    if c == sep then [] :: r
    else
      match r with
      | [] => [[c]]
      | h :: t => (c :: h) :: t

/-- Parse an all-digit character sequence as a decimal number (the numeric
field scanning inside `datetime.strptime`). -/
def parseNatL (s : List Char) : Option Nat :=
  if s ≠ [] && s.all Char.isDigit then
    some (s.foldl (fun acc c => 10 * acc + (c.toNat - '0'.toNat)) 0)
  else none

/-! ## Application A: task data model (`src/database/models.py`)

`Task` mirrors the ORM model's columns; field defaults mirror the column
defaults (`priority=0`, `status='pending'`, `completed_at` unset). -/

structure SmartLife.Task where
  id : Nat
  user_id : Nat
  title : String
  description : Option String := none
  category : Option String := none
  priority : Nat := 0
  deadline : Option Nat := none
  status : String := "pending"
  created_at : Nat
  completed_at : Option Nat := none
deriving DecidableEq, Repr

/-- The slice of the `User` row read by the task handler. -/
structure SmartLife.User where
  user_id : Nat
  premium_status : Bool
deriving DecidableEq, Repr

/-! ## Application A: `DatabaseManager` task operations
(`src/database/db_manager.py`) -/

/-- `DatabaseManager.add_task`: inserts a row; `status`, `priority` and
`completed_at` take their column defaults, `created_at` the insertion
time. -/
def SmartLife.DatabaseManager.add_task (db : List SmartLife.Task) (id user_id : Nat)
    (title : String) (description : Option String) (category : Option String)
    (deadline : Option Nat) (created_at : Nat) : List SmartLife.Task :=
  db ++ [{ id := id, user_id := user_id, title := title, description := description,
           category := category, deadline := deadline, created_at := created_at }]

/-- `DatabaseManager.get_user_tasks(user_id, status='pending', limit=50)`:
filters by owner, then by `status` when it is truthy, orders by
`created_at` descending and caps the result.  The Python default for
`status` is the string `'pending'`, not `None`. -/
def SmartLife.DatabaseManager.get_user_tasks (db : List SmartLife.Task) (user_id : Nat)
    (status : Option String := some "pending") (limit : Nat := 50) : List SmartLife.Task :=
  let q := db.filter (fun t => t.user_id == user_id)
  let q :=
    match status with
    | some s => q.filter (fun t => t.status == s)
    | none => q
  (sortStable (fun a b => decide (b.created_at ≤ a.created_at)) q).take limit

/-- `DatabaseManager.get_task`: single task scoped to `id` + `user_id`. -/
def SmartLife.DatabaseManager.get_task (db : List SmartLife.Task) (task_id user_id : Nat) :
    Option SmartLife.Task :=
  db.find? (fun t => t.id == task_id && t.user_id == user_id)

/-- `DatabaseManager.complete_task`: looks the task up by `id` + `user_id`;
when present sets `status='completed'` and `completed_at=utcnow()` and
reports `True`, otherwise reports `False`. -/
def SmartLife.DatabaseManager.complete_task (db : List SmartLife.Task)
    (task_id user_id now : Nat) : Bool × List SmartLife.Task :=
  match db.find? (fun t => t.id == task_id && t.user_id == user_id) with
  | some _ =>
    (true,
     updateFirst (fun t => t.id == task_id && t.user_id == user_id)
       (fun t => { t with status := "completed", completed_at := some now }) db)
  | none => (false, db)

/-- Modelled from the spec: `DatabaseManager.get_tasks_count_today` is
called by `TaskHandler.add_task_start` but defined nowhere in the
repository (the spec flags the helper as an open item and describes it as
the number of tasks the user has already created today).  A task counts as
created today when its `created_at` falls on day `today`
(day = minutes / 1440). -/
def SmartLife.DatabaseManager.get_tasks_count_today (db : List SmartLife.Task)
    (user_id today : Nat) : Nat :=
  (db.filter (fun t => t.user_id == user_id && t.created_at / 1440 == today)).length

/-! ## Application A: `TaskHandler` (`src/handlers/task_handler.py`) -/

inductive SmartLife.AddTaskStartResult
  | blockedFreeTier
  | promptTitle
deriving DecidableEq, Repr

/-- `TaskHandler.add_task_start`: the free-tier gate run before the title
prompt.  A non-premium user with at least 20 tasks created today is
blocked with the upsell message and the conversation ends; everyone else
reaches the title prompt (`WAITING_TASK_TITLE`). -/
def SmartLife.TaskHandler.add_task_start (user : SmartLife.User)
    (db : List SmartLife.Task) (today : Nat) : SmartLife.AddTaskStartResult :=
  if user.premium_status = false then
    if SmartLife.DatabaseManager.get_tasks_count_today db user.user_id today ≥ 20 then
      .blockedFreeTier
    else .promptTitle
  else .promptTitle

inductive SmartLife.CompleteReply
  | notFound
  | alreadyCompleted
  | completed
  | failed
deriving DecidableEq, Repr

/-- `TaskHandler.complete_task` from the point the task id has been read:
fetch the task; report not-found; report already-completed without
touching the database; otherwise delegate to
`DatabaseManager.complete_task`. -/
def SmartLife.TaskHandler.complete_task (db : List SmartLife.Task)
    (user_id task_id now : Nat) : SmartLife.CompleteReply × List SmartLife.Task :=
  match SmartLife.DatabaseManager.get_task db task_id user_id with
  | none => (.notFound, db)
  | some task =>
    if task.status == "completed" then (.alreadyCompleted, db)
    else
      let r := SmartLife.DatabaseManager.complete_task db task_id user_id now
      (if r.1 then .completed else .failed, r.2)

/-- `TaskHandler.view_tasks`: dispatch on the filter string.  `all` calls
`get_user_tasks(user_id)` (hence the Python-default `status='pending'`);
`today` calls the nonexistent `DatabaseManager.get_tasks_due_today`
(an `AttributeError` at runtime); the four category filters pass a
`category=` keyword that `get_user_tasks` does not accept (a `TypeError`
at runtime).  Errors are modelled with `Except.error`. -/
def SmartLife.TaskHandler.view_tasks (db : List SmartLife.Task) (user_id : Nat)
    (filter_type : String) : Except String (List SmartLife.Task) :=
  if filter_type == "all" then
    .ok (SmartLife.DatabaseManager.get_user_tasks db user_id)
  else if filter_type == "pending" then
    .ok (SmartLife.DatabaseManager.get_user_tasks db user_id (some "pending"))
  else if filter_type == "completed" then
    .ok (SmartLife.DatabaseManager.get_user_tasks db user_id (some "completed"))
  else if filter_type == "today" then
    .error "AttributeError: DatabaseManager has no attribute get_tasks_due_today"
  else if filter_type == "work" || filter_type == "study" ||
          filter_type == "personal" || filter_type == "urgent" then
    .error "TypeError: get_user_tasks got an unexpected keyword argument category"
  else
    .ok (SmartLife.DatabaseManager.get_user_tasks db user_id)

/-! ## Application A: custom-deadline step (`TaskHandler.receive_custom_deadline`)

`datetime.strptime(s, '%d-%m-%Y')` / `'%d-%m-%Y %H:%M'` is embedded as a
field-wise parser that enforces the numeric field widths and the calendar
validity checks `strptime` performs (month 1–12, day 1–days-in-month with
leap years, hour 0–23, minute 0–59). -/

/-- Strip leading and trailing whitespace (Python `str.strip()`). -/
def trimL (s : List Char) : List Char :=
  (((s.dropWhile Char.isWhitespace).reverse).dropWhile Char.isWhitespace).reverse

structure SmartLife.DateTime where
  year : Nat
  month : Nat
  day : Nat
  hour : Nat
  minute : Nat
deriving DecidableEq, Repr

/-- Python `datetime` comparison: lexicographic on
(year, month, day, hour, minute). -/
def SmartLife.DateTime.lt (a b : SmartLife.DateTime) : Bool :=
  if a.year ≠ b.year then a.year < b.year
  else if a.month ≠ b.month then a.month < b.month
  else if a.day ≠ b.day then a.day < b.day
  else if a.hour ≠ b.hour then a.hour < b.hour
  else a.minute < b.minute

def SmartLife.isLeap (y : Nat) : Bool :=
  (y % 4 == 0 && y % 100 != 0) || y % 400 == 0

def SmartLife.daysInMonth (m y : Nat) : Nat :=
  if m == 2 then (if SmartLife.isLeap y then 29 else 28)
  else if m == 4 || m == 6 || m == 9 || m == 11 then 30
  else 31

/-- `datetime.strptime(s, '%d-%m-%Y')`: day and month of one or two
digits, four-digit year, calendar-valid day; time-of-day is midnight. -/
def SmartLife.strptime_dmy (s : List Char) : Option SmartLife.DateTime :=
  match splitOnCharL '-' s with
  | [ds, ms, ys] =>
    match parseNatL ds, parseNatL ms, parseNatL ys with
    | some d, some m, some y =>
      if ds.length ≤ 2 && ms.length ≤ 2 && ys.length == 4 &&
         1 ≤ m && m ≤ 12 && 1 ≤ d && d ≤ SmartLife.daysInMonth m y then
        some ⟨y, m, d, 0, 0⟩
      else none
    | _, _, _ => none
  | _ => none

/-- The `%H:%M` part of `datetime.strptime(s, '%d-%m-%Y %H:%M')`. -/
def SmartLife.strptime_hm (s : List Char) : Option (Nat × Nat) :=
  match splitOnCharL ':' s with
  | [hs, ms] =>
    match parseNatL hs, parseNatL ms with
    | some h, some mi =>
      if hs.length ≤ 2 && ms.length ≤ 2 && h ≤ 23 && mi ≤ 59 then some (h, mi) else none
    | _, _ => none
  | _ => none

/-- `datetime.strptime(s, '%d-%m-%Y %H:%M')`. -/
def SmartLife.strptime_dmy_hm (s : List Char) : Option SmartLife.DateTime :=
  match splitOnCharL ' ' s with
  | [datePart, timePart] =>
    match SmartLife.strptime_dmy datePart, SmartLife.strptime_hm timePart with
    | some d, some (h, mi) => some { d with hour := h, minute := mi }
    | _, _ => none
  | _ => none

/-- The conversation-scoped `context.user_data` fields the deadline step
touches. -/
structure SmartLife.UserData where
  task_title : Option String := none
  task_category : Option String := none
  task_deadline : Option SmartLife.DateTime := none
  waiting_custom_deadline : Bool := false
deriving DecidableEq, Repr

inductive SmartLife.ConvState
  | WAITING_TASK_DEADLINE
  | WAITING_TASK_PRIORITY
deriving DecidableEq, Repr

inductive SmartLife.DeadlineReply
  | noReply
  | invalidFormat
  | pastDeadline
  | promptPriority (deadline : SmartLife.DateTime)
deriving DecidableEq, Repr

/-- `TaskHandler.receive_custom_deadline`: guard on the
`waiting_custom_deadline` flag; strip the text; parse with the
with-time format when the text contains a space, the date-only format
otherwise; re-prompt (staying in `WAITING_TASK_DEADLINE`, user data
untouched) on a parse failure or a deadline before `now`; otherwise store
the deadline, clear the flag and advance to `WAITING_TASK_PRIORITY`. -/
def SmartLife.TaskHandler.receive_custom_deadline (ud : SmartLife.UserData)
    (now : SmartLife.DateTime) (text : String) :
    SmartLife.DeadlineReply × SmartLife.UserData × SmartLife.ConvState :=
  if ud.waiting_custom_deadline = false then (.noReply, ud, .WAITING_TASK_DEADLINE)
  else
    let date_text := trimL text.toList
    let parsed :=
      if date_text.contains ' ' then SmartLife.strptime_dmy_hm date_text
      else SmartLife.strptime_dmy date_text
    match parsed with
    | none => (.invalidFormat, ud, .WAITING_TASK_DEADLINE)
    | some deadline =>
      if SmartLife.DateTime.lt deadline now then (.pastDeadline, ud, .WAITING_TASK_DEADLINE)
      else
        (.promptPriority deadline,
         { ud with task_deadline := some deadline, waiting_custom_deadline := false },
         .WAITING_TASK_PRIORITY)

/-! ## Application A: mood-insights energy trend
(`AnalyticsService._calculate_energy_trend`, `src/services/analytics_service.py`).
Averages are exact rationals standing for Python floats (all inputs are
small integers, so float arithmetic is exact here). -/

structure SmartLife.MoodLog where
  timestamp : Nat
  energy_level : Option Int
deriving DecidableEq, Repr

/-- `sorted(mood_logs, key=lambda x: x.timestamp)` (stable). -/
def SmartLife.AnalyticsService.sorted_logs (mood_logs : List SmartLife.MoodLog) :
    List SmartLife.MoodLog :=
  sortStable (fun a b => decide (a.timestamp ≤ b.timestamp)) mood_logs

/-- The list-comprehension guard `if log.energy_level`: keeps the value
when it is neither `None` nor `0`. -/
def SmartLife.AnalyticsService.truthyEnergy (log : SmartLife.MoodLog) : Option Int :=
  match log.energy_level with
  | some v => if v = 0 then none else some v
  | none => none

/-- `[log.energy_level for log in sorted_logs[:mid] if log.energy_level]`
with `mid = len(sorted_logs) // 2`. -/
def SmartLife.AnalyticsService.first_half (mood_logs : List SmartLife.MoodLog) : List Int :=
  let s := SmartLife.AnalyticsService.sorted_logs mood_logs
  (s.take (s.length / 2)).filterMap SmartLife.AnalyticsService.truthyEnergy

/-- `[log.energy_level for log in sorted_logs[mid:] if log.energy_level]`. -/
def SmartLife.AnalyticsService.second_half (mood_logs : List SmartLife.MoodLog) : List Int :=
  let s := SmartLife.AnalyticsService.sorted_logs mood_logs
  (s.drop (s.length / 2)).filterMap SmartLife.AnalyticsService.truthyEnergy

/-- `sum(l) / len(l)`. -/
def SmartLife.AnalyticsService.avg (l : List Int) : ℚ := (l.sum : ℚ) / (l.length : ℚ)

/-- `AnalyticsService._calculate_energy_trend`. -/
def SmartLife.AnalyticsService.calculate_energy_trend
    (mood_logs : List SmartLife.MoodLog) : String :=
  if mood_logs.length < 2 then "insufficient_data"
  else
    let fh := SmartLife.AnalyticsService.first_half mood_logs
    let sh := SmartLife.AnalyticsService.second_half mood_logs
    if fh = [] ∨ sh = [] then "insufficient_data"
    else
      let diff := SmartLife.AnalyticsService.avg sh - SmartLife.AnalyticsService.avg fh
      if diff > 1 / 2 then "increasing"
      else if diff < -(1 / 2) then "decreasing"
      else "stable"

/-! ## Application A: note search (`src/database/db_manager.py`
`search_notes`, `src/services/note_service.py` `_calculate_relevance` and
`search_notes`).  Relevance scores are exact rationals standing for Python
floats (all contributions are small integers). -/

structure SmartLife.Note where
  id : Nat
  user_id : Nat
  title : String
  content : String
  category : Option String := none
  tags : Option String := none
  created_at : Nat
  updated_at : Nat
deriving DecidableEq, Repr

/-- Case-insensitive substring test: SQLite `LIKE '%pat%'` on ASCII /
Python `pat.lower() in s.lower()`. -/
def SmartLife.containsCI (s pat : String) : Bool :=
  containsL (lowerL pat.toList) (lowerL s.toList)

/-- `DatabaseManager.search_notes` (the richer, overriding definition):
owner filter, then title-or-content substring filter when the query is
truthy, category equality filter, one `tags LIKE '%tag%'` filter per
requested tag, ordered by `updated_at` descending, capped at `limit`. -/
def SmartLife.DatabaseManager.search_notes (notes : List SmartLife.Note) (user_id : Nat)
    (query : String) (category : Option String) (tags : Option (List String))
    (limit : Nat := 20) : List SmartLife.Note :=
  let q := notes.filter (fun n => n.user_id == user_id)
  let q :=
    if query ≠ "" then
      q.filter (fun n => SmartLife.containsCI n.title query || SmartLife.containsCI n.content query)
    else q
  let q :=
    match category with
    | some c => q.filter (fun n => n.category == some c)
    | none => q
  let q :=
    match tags with
    | some ts => ts.foldl (fun acc tag => acc.filter (fun n => SmartLife.containsCI (n.tags.getD "") tag)) q
    | none => q
  (sortStable (fun a b => decide (b.updated_at ≤ a.updated_at)) q).take limit

/-- `NoteService._calculate_relevance`: exact lowered-title match +10,
substring title match +5, +1 per non-overlapping case-insensitive
occurrence of the query in the content, +3 per requested tag that appears
verbatim in the note's comma-joined tag list (only when both tag lists are
truthy). -/
def SmartLife.NoteService.calculate_relevance (note : SmartLife.Note) (query : String)
    (tags : Option (List String)) : ℚ :=
  let query_lower := lowerL query.toList
  let title_lower := lowerL note.title.toList
  let titleScore : ℚ :=
    if query_lower = title_lower then 10
    else if containsL query_lower title_lower then 5
    else 0
  let content_lower := lowerL note.content.toList
  let contentScore : ℚ := (pyCount content_lower query_lower : ℚ)
  let tagScore : ℚ :=
    match tags, note.tags with
    | some ts, some nt =>
      if ts ≠ [] && nt ≠ "" then
        3 * ((ts.filter (fun tag => (splitOnCharL ',' nt.toList).contains tag.toList)).length : ℚ)
      else 0
    | _, _ => 0
  titleScore + contentScore + tagScore

structure SmartLife.NoteSearchResult where
  id : Nat
  title : String
  content : String
  category : Option String
  tags : List String
  created_at : Nat
  relevance : ℚ
deriving DecidableEq, Repr

/-- `NoteService.search_notes`: fetch via the database search, score each
hit, stable-sort by descending relevance, and reshape rows into result
mappings (200-character content preview, comma-split tag list). -/
def SmartLife.NoteService.search_notes (notes : List SmartLife.Note) (user_id : Nat)
    (query : String) (category : Option String) (tags : Option (List String))
    (limit : Nat := 20) : List SmartLife.NoteSearchResult :=
  let found := SmartLife.DatabaseManager.search_notes notes user_id query category tags limit
  let scored := found.map (fun n => (n, SmartLife.NoteService.calculate_relevance n query tags))
  let sorted := sortStable (fun a b => decide (b.2 ≤ a.2)) scored
  sorted.map (fun it =>
    { id := it.1.id, title := it.1.title,
      content := String.mk (it.1.content.toList.take 200),
      category := it.1.category,
      tags :=
        match it.1.tags with
        | some s => (splitOnCharL ',' s.toList).map String.mk
        | none => [],
      created_at := it.1.created_at,
      relevance := it.2 })

/-! ## Application A: calendar free-slot finder
(`CalendarService.find_free_slots`, `src/services/calendar_service.py`).
Times are minutes since an epoch whose day 0 is a Monday, so Python
`weekday()` is `(t / 1440) % 7` and `replace(hour=h, minute=0, ...)` is
`(t / 1440) * 1440 + h * 60`. -/

structure SmartLife.BusySlot where
  start : Nat
  end_ : Nat
deriving DecidableEq, Repr

structure SmartLife.FreeSlot where
  start : Nat
  end_ : Nat
deriving DecidableEq, Repr

/-- The inner `while slot_start + duration <= work_end` loop: emit the
slot when it overlaps no busy interval, then advance one hour.  The fuel
argument bounds the iteration count; the work window is 540 minutes and
the step 60 minutes, so 10 is always enough. -/
def SmartLife.CalendarService.slot_loop (busy_times : List SmartLife.BusySlot)
    (durMin work_end : Nat) : Nat → Nat → List SmartLife.FreeSlot
  | 0, _ => []
  | fuel + 1, slot_start =>
    if slot_start + durMin ≤ work_end then
      let slot_end := slot_start + durMin
      let is_free := busy_times.all (fun busy => !(decide (slot_start < busy.end_) && decide (slot_end > busy.start)))
      (if is_free then [{ start := slot_start, end_ := slot_end }] else []) ++
        SmartLife.CalendarService.slot_loop busy_times durMin work_end fuel (slot_start + 60)
    else []

/-- The outer `while current_date < end_date` loop.  `current_date` starts
at 09:00 and advances one whole day per iteration, and
`end_date = current_date + days_ahead` days, so the loop runs exactly
`days_ahead` times; weekend days contribute nothing. -/
def SmartLife.CalendarService.day_loop (busy_times : List SmartLife.BusySlot)
    (durMin : Nat) : Nat → Nat → List SmartLife.FreeSlot
  | 0, _ => []
  | days + 1, current_date =>
    let day_base := (current_date / 1440) * 1440
    (if (current_date / 1440) % 7 ≥ 5 then []
     else
       SmartLife.CalendarService.slot_loop busy_times durMin (day_base + 18 * 60) 10
         (day_base + 9 * 60)) ++
      SmartLife.CalendarService.day_loop busy_times durMin days (current_date + 1440)

/-- `CalendarService.find_free_slots`: scan starts at
`datetime.now().replace(hour=9, minute=0, second=0, microsecond=0)` —
09:00 of the invocation day, regardless of the invocation time — and the
first 10 free slots are returned. -/
def SmartLife.CalendarService.find_free_slots (busy_times : List SmartLife.BusySlot)
    (now : Nat) (duration_hours : Nat := 1) (days_ahead : Nat := 7) :
    List SmartLife.FreeSlot :=
  let current_date := (now / 1440) * 1440 + 9 * 60
  (SmartLife.CalendarService.day_loop busy_times (duration_hours * 60) days_ahead current_date).take 10

/-! ## Application B: reminder poller (`check_calendar_reminders`,
`src/main.py`).  Event starts and `now` are seconds; the Python condition
`0 <= (start - now).total_seconds() / 60 <= 5` is exactly
`0 ≤ start - now ≤ 300` seconds.  The process-local `sent_reminders` set
is a duplicate-free list (ids are only added when absent). -/

structure Aqlli.CalEvent where
  id : String
  start_seconds : Int
deriving DecidableEq, Repr

/-- The body of the poller's `for event in events` loop: when the event
starts within the next five minutes and its id is not in the sent-set,
send the message (append the id to the cycle's message list) and add the
id to the set. -/
def Aqlli.reminderStep (now : Int) (acc : List String × List String)
    (e : Aqlli.CalEvent) : List String × List String :=
  if 0 ≤ e.start_seconds - now ∧ e.start_seconds - now ≤ 300 then
    if acc.2.contains e.id then acc
    else (acc.1 ++ [e.id], acc.2 ++ [e.id])
  else acc

/-- One poll's pass over the fetched events, before the size check:
returns (messages sent this cycle, updated sent-set). -/
def Aqlli.pollFold (sent_reminders : List String) (events : List Aqlli.CalEvent)
    (now : Int) : List String × List String :=
  events.foldl (Aqlli.reminderStep now) ([], sent_reminders)

/-- `check_calendar_reminders`: send a "starting soon" message for each
event within the 5-minute window whose id is not yet in the sent-set, add
the id, and finally clear the whole set when it holds more than 100
ids. -/
def Aqlli.check_calendar_reminders (sent_reminders : List String)
    (events : List Aqlli.CalEvent) (now : Int) : List String × List String :=
  let r := Aqlli.pollFold sent_reminders events now
  (r.1, if r.2.length > 100 then [] else r.2)

/-- Successive scheduler invocations of `check_calendar_reminders`,
threading the `sent_reminders` set; returns all messages sent across the
run and the final set. -/
def Aqlli.run_reminder_polls (sent : List String) :
    List (List Aqlli.CalEvent × Int) → List String × List String
  | [] => ([], sent)
  | (events, now) :: rest =>
    let r := Aqlli.check_calendar_reminders sent events now
    let rr := Aqlli.run_reminder_polls r.2 rest
    (r.1 ++ rr.1, rr.2)

/-- The run never triggers the `len(sent_reminders) > 100` wholesale
clear: after each cycle's pass the accumulated set still has at most 100
ids. -/
def Aqlli.noClearRun (sent : List String) :
    List (List Aqlli.CalEvent × Int) → Bool
  | [] => true
  | (events, now) :: rest =>
    let r := Aqlli.pollFold sent events now
    decide (r.2.length ≤ 100) && Aqlli.noClearRun r.2 rest

/-! ## Application B: AI classifier fallback (`process_text_with_ai`,
`src/processor.py`).  The chat-completion request and the
`json.loads` of its reply are the two failure sources inside the `try`;
both are modelled as `Except` values, and the single `except` clause is
their monadic composition. -/

structure Aqlli.AiResult where
  type : String
  content : String
  description : Option String := none
  date : String
  time : Option String := none
  category : String
deriving DecidableEq, Repr

/-- `process_text_with_ai`: on any request or JSON-parse failure, return
the fallback mapping
`{"type": "idea", "content": user_text, "category": "General", "date": today, "time": None}`
(the entire original text, verbatim, with no time and no description). -/
def Aqlli.process_text_with_ai (user_text today : String)
    (response : Except String String)
    (parse_json : String → Except String Aqlli.AiResult) : Aqlli.AiResult :=
  match response.bind parse_json with
  | .error _ => { type := "idea", content := user_text, date := today, category := "General" }
  | .ok r => r

/-! ## Helper lemmas -/

/-- `find?` after updating the first match returns the updated element,
provided the update does not change the predicate's verdict. -/
theorem find?_updateFirst (p : α → Bool) (f : α → α) (h : ∀ x, p (f x) = p x)
    (l : List α) : (updateFirst p f l).find? p = (l.find? p).map f := by
  induction l with
  | nil => rfl
  | cons x xs ih =>
    by_cases hx : p x = true
    · simp [updateFirst, hx, List.find?, h x]
    · have hx' : p x = false := by simpa using hx
      simp [updateFirst, hx', List.find?, ih]

/-! ## C1 -/

/-- C1: the task-listing view with filter `all` is claimed to return the
user's tasks of every status.  Evaluating the embedded
`TaskHandler.view_tasks` on a user whose only task is completed shows the
`all` filter returns the empty list (because
`DatabaseManager.get_user_tasks` defaults `status='pending'`), while the
`completed` filter does return the task; the `today` and category filters
do not reach the database at all (missing method / unexpected keyword
argument).  This evaluates the code at the failing input of the C1 code
bug. -/
theorem C1_view_tasks_all_filter_evaluation :
    (SmartLife.TaskHandler.view_tasks
        [{ id := 1, user_id := 1, title := "Write report", status := "completed",
           created_at := 0, completed_at := some 5 }] 1 "all" = .ok []) ∧
    (SmartLife.TaskHandler.view_tasks
        [{ id := 1, user_id := 1, title := "Write report", status := "completed",
           created_at := 0, completed_at := some 5 }] 1 "completed"
      = .ok [{ id := 1, user_id := 1, title := "Write report", status := "completed",
               created_at := 0, completed_at := some 5 }]) ∧
    (SmartLife.TaskHandler.view_tasks
        [{ id := 1, user_id := 1, title := "Write report", status := "completed",
           created_at := 0, completed_at := some 5 }] 1 "work"
      = .error "TypeError: get_user_tasks got an unexpected keyword argument category") ∧
    (SmartLife.TaskHandler.view_tasks
        [{ id := 1, user_id := 1, title := "Write report", status := "completed",
           created_at := 0, completed_at := some 5 }] 1 "today"
      = .error "AttributeError: DatabaseManager has no attribute get_tasks_due_today") :=
  ⟨rfl, rfl, rfl, rfl⟩

/-! ## C2 -/

/-- C2: every task is created with status `pending`; a successful complete
operation sets status `completed` and `completed_at = now`, which is
`≥ created_at` whenever the clock is monotone (`created_at ≤ now`); and a
complete on an already-completed task replies "already completed" and
leaves the database untouched. -/
theorem C2_task_completion_lifecycle :
    (∀ (db : List SmartLife.Task) (i uid : Nat) (title : String)
       (description category : Option String) (deadline : Option Nat) (ts : Nat),
      ∃ t : SmartLife.Task,
        SmartLife.DatabaseManager.add_task db i uid title description category deadline ts
          = db ++ [t] ∧ t.status = "pending" ∧ t.completed_at = none ∧ t.created_at = ts)
  ∧ (∀ (db : List SmartLife.Task) (uid tid now : Nat) (t : SmartLife.Task),
      SmartLife.DatabaseManager.get_task db tid uid = some t →
      t.status ≠ "completed" → t.created_at ≤ now →
      ∃ db2, SmartLife.TaskHandler.complete_task db uid tid now
          = (SmartLife.CompleteReply.completed, db2) ∧
        SmartLife.DatabaseManager.get_task db2 tid uid
          = some { t with status := "completed", completed_at := some now } ∧
        ({ t with status := "completed", completed_at := some now } : SmartLife.Task).created_at
          ≤ now)
  ∧ (∀ (db : List SmartLife.Task) (uid tid now : Nat) (t : SmartLife.Task),
      SmartLife.DatabaseManager.get_task db tid uid = some t →
      t.status = "completed" →
      SmartLife.TaskHandler.complete_task db uid tid now
        = (SmartLife.CompleteReply.alreadyCompleted, db)) := by
  refine ⟨?_, ?_, ?_⟩
  · intro db i uid title description category deadline ts
    exact ⟨_, rfl, rfl, rfl, rfl⟩
  · intro db uid tid now t hget hst hle
    have hbeq : (t.status == "completed") = false := beq_eq_false_iff_ne.mpr hst
    have hfind : db.find? (fun t => t.id == tid && t.user_id == uid) = some t := hget
    have hrun : SmartLife.TaskHandler.complete_task db uid tid now
        = (SmartLife.CompleteReply.completed,
           updateFirst (fun t => t.id == tid && t.user_id == uid)
             (fun t => { t with status := "completed", completed_at := some now }) db) := by
      simp [SmartLife.TaskHandler.complete_task, SmartLife.DatabaseManager.get_task,
            SmartLife.DatabaseManager.complete_task, hfind, hbeq]
    refine ⟨_, hrun, ?_, hle⟩
    simp only [SmartLife.DatabaseManager.get_task]
    rw [find?_updateFirst (fun t => t.id == tid && t.user_id == uid)
          (fun t => { t with status := "completed", completed_at := some now })
          (fun x => rfl) db, hfind]
    rfl
  · intro db uid tid now t hget hst
    have hbeq : (t.status == "completed") = true := beq_iff_eq.mpr hst
    have hfind : db.find? (fun t => t.id == tid && t.user_id == uid) = some t := hget
    simp [SmartLife.TaskHandler.complete_task, SmartLife.DatabaseManager.get_task,
          hfind, hbeq]

/-- Witness for C2 at concrete inputs: completing task 1 of user 1 created
at time 3 at time 7 succeeds and stamps `completed_at = 7 ≥ 3`; completing
an already-completed task leaves the database unchanged. -/
theorem C2_task_completion_lifecycle_witness :
    (∃ db2, SmartLife.TaskHandler.complete_task
        [{ id := 1, user_id := 1, title := "Write report", created_at := 3 }] 1 1 7
          = (SmartLife.CompleteReply.completed, db2) ∧
      SmartLife.DatabaseManager.get_task db2 1 1
        = some { id := 1, user_id := 1, title := "Write report", created_at := 3,
                 status := "completed", completed_at := some 7 } ∧
      ({ id := 1, user_id := 1, title := "Write report", created_at := 3,
         status := "completed", completed_at := some 7 } : SmartLife.Task).created_at ≤ 7) ∧
    SmartLife.TaskHandler.complete_task
        [{ id := 2, user_id := 1, title := "Old", created_at := 0,
           status := "completed", completed_at := some 1 }] 1 2 9
      = (SmartLife.CompleteReply.alreadyCompleted,
         [{ id := 2, user_id := 1, title := "Old", created_at := 0,
            status := "completed", completed_at := some 1 }]) := by
  constructor
  · exact C2_task_completion_lifecycle.2.1
      [{ id := 1, user_id := 1, title := "Write report", created_at := 3 }] 1 1 7
      { id := 1, user_id := 1, title := "Write report", created_at := 3 }
      rfl (by decide) (by decide)
  · exact C2_task_completion_lifecycle.2.2
      [{ id := 2, user_id := 1, title := "Old", created_at := 0,
         status := "completed", completed_at := some 1 }] 1 2 9
      { id := 2, user_id := 1, title := "Old", created_at := 0,
        status := "completed", completed_at := some 1 }
      rfl rfl

/-! ## C3 -/

/-- C3: a non-premium user with exactly 20 tasks already created today is
blocked by the free-tier gate before any title prompt; with 19 such tasks
the flow reaches the title prompt. -/
theorem C3_free_tier_gate (user : SmartLife.User) (db : List SmartLife.Task)
    (today : Nat) (hprem : user.premium_status = false) :
    (SmartLife.DatabaseManager.get_tasks_count_today db user.user_id today = 20 →
      SmartLife.TaskHandler.add_task_start user db today
        = SmartLife.AddTaskStartResult.blockedFreeTier) ∧
    (SmartLife.DatabaseManager.get_tasks_count_today db user.user_id today = 19 →
      SmartLife.TaskHandler.add_task_start user db today
        = SmartLife.AddTaskStartResult.promptTitle) := by
  constructor
  · intro h20
    simp [SmartLife.TaskHandler.add_task_start, hprem, h20]
  · intro h19
    simp [SmartLife.TaskHandler.add_task_start, hprem, h19]

/-- Witness for C3: user 7, non-premium, with 20 identical tasks created
on day 0 is blocked; with 19 the title prompt is reached. -/
theorem C3_free_tier_gate_witness :
    (SmartLife.DatabaseManager.get_tasks_count_today
        (List.replicate 20 { id := 1, user_id := 7, title := "Chore", created_at := 10 }) 7 0
        = 20 ∧
      SmartLife.TaskHandler.add_task_start ⟨7, false⟩
        (List.replicate 20 { id := 1, user_id := 7, title := "Chore", created_at := 10 }) 0
        = SmartLife.AddTaskStartResult.blockedFreeTier) ∧
    (SmartLife.DatabaseManager.get_tasks_count_today
        (List.replicate 19 { id := 1, user_id := 7, title := "Chore", created_at := 10 }) 7 0
        = 19 ∧
      SmartLife.TaskHandler.add_task_start ⟨7, false⟩
        (List.replicate 19 { id := 1, user_id := 7, title := "Chore", created_at := 10 }) 0
        = SmartLife.AddTaskStartResult.promptTitle) := by
  constructor
  · exact ⟨by decide,
      (C3_free_tier_gate ⟨7, false⟩
        (List.replicate 20 { id := 1, user_id := 7, title := "Chore", created_at := 10 }) 0
        rfl).1 (by decide)⟩
  · exact ⟨by decide,
      (C3_free_tier_gate ⟨7, false⟩
        (List.replicate 19 { id := 1, user_id := 7, title := "Chore", created_at := 10 }) 0
        rfl).2 (by decide)⟩

/-! ## C4 -/

/-- C4 counterexample: with exactly two mood logs the sorted list splits
into two halves of one data point each — fewer than 2 — yet
`_calculate_energy_trend` classifies the trend ("increasing" here, since
10 − 1 > 0.5) instead of returning "insufficient_data" as the claim
requires. -/
theorem C4_energy_trend_counterexample :
    (SmartLife.AnalyticsService.first_half
        [{ timestamp := 0, energy_level := some 1 },
         { timestamp := 1, energy_level := some 10 }]).length < 2 ∧
    (SmartLife.AnalyticsService.second_half
        [{ timestamp := 0, energy_level := some 1 },
         { timestamp := 1, energy_level := some 10 }]).length < 2 ∧
    SmartLife.AnalyticsService.calculate_energy_trend
        [{ timestamp := 0, energy_level := some 1 },
         { timestamp := 1, energy_level := some 10 }] = "increasing" := by
  have hfh : SmartLife.AnalyticsService.first_half
      [{ timestamp := 0, energy_level := some 1 },
       { timestamp := 1, energy_level := some 10 }] = [1] := by decide
  have hsh : SmartLife.AnalyticsService.second_half
      [{ timestamp := 0, energy_level := some 1 },
       { timestamp := 1, energy_level := some 10 }] = [10] := by decide
  refine ⟨by decide, by decide, ?_⟩
  simp only [SmartLife.AnalyticsService.calculate_energy_trend, hfh, hsh]
  norm_num [SmartLife.AnalyticsService.avg]

/-- C4 amended: `_calculate_energy_trend` returns "insufficient_data"
exactly when the whole list has fewer than 2 logs or one of the two
halves is empty after dropping falsy (absent or zero) energy values —
halves with exactly one data point are classified normally — and
otherwise classifies by the ±0.5 thresholds on the difference of the
half averages. -/
theorem C4_energy_trend_amended (mood_logs : List SmartLife.MoodLog) :
    (SmartLife.AnalyticsService.calculate_energy_trend mood_logs = "insufficient_data"
      ↔ mood_logs.length < 2
        ∨ SmartLife.AnalyticsService.first_half mood_logs = []
        ∨ SmartLife.AnalyticsService.second_half mood_logs = []) ∧
    (2 ≤ mood_logs.length →
      SmartLife.AnalyticsService.first_half mood_logs ≠ [] →
      SmartLife.AnalyticsService.second_half mood_logs ≠ [] →
      SmartLife.AnalyticsService.calculate_energy_trend mood_logs =
        (if SmartLife.AnalyticsService.avg (SmartLife.AnalyticsService.second_half mood_logs)
              - SmartLife.AnalyticsService.avg (SmartLife.AnalyticsService.first_half mood_logs)
              > 1 / 2
         then "increasing"
         else if SmartLife.AnalyticsService.avg (SmartLife.AnalyticsService.second_half mood_logs)
              - SmartLife.AnalyticsService.avg (SmartLife.AnalyticsService.first_half mood_logs)
              < -(1 / 2)
         then "decreasing"
         else "stable")) := by
  constructor
  · unfold SmartLife.AnalyticsService.calculate_energy_trend
    by_cases h1 : mood_logs.length < 2
    · simp [h1]
    · by_cases h2 : SmartLife.AnalyticsService.first_half mood_logs = []
          ∨ SmartLife.AnalyticsService.second_half mood_logs = []
      · simp [h1, h2]
      · simp only [h1, if_false, h2]
        split_ifs <;> simp [h1, h2]
  · intro hlen hfh hsh
    have h1 : ¬ mood_logs.length < 2 := by omega
    have h2 : ¬ (SmartLife.AnalyticsService.first_half mood_logs = []
        ∨ SmartLife.AnalyticsService.second_half mood_logs = []) := by
      simp [hfh, hsh]
    simp only [SmartLife.AnalyticsService.calculate_energy_trend, h1, if_false, h2]

/-- Witness for the amended C4 at the two-log input: the hypotheses hold
and the classifier agrees with the threshold comparison. -/
theorem C4_energy_trend_amended_witness :
    (2 ≤ ([{ timestamp := 0, energy_level := some 1 },
           { timestamp := 1, energy_level := some 10 }] : List SmartLife.MoodLog).length ∧
      SmartLife.AnalyticsService.first_half
        [{ timestamp := 0, energy_level := some 1 },
         { timestamp := 1, energy_level := some 10 }] ≠ [] ∧
      SmartLife.AnalyticsService.second_half
        [{ timestamp := 0, energy_level := some 1 },
         { timestamp := 1, energy_level := some 10 }] ≠ []) ∧
    SmartLife.AnalyticsService.calculate_energy_trend
        [{ timestamp := 0, energy_level := some 1 },
         { timestamp := 1, energy_level := some 10 }] =
      (if SmartLife.AnalyticsService.avg (SmartLife.AnalyticsService.second_half
              [{ timestamp := 0, energy_level := some 1 },
               { timestamp := 1, energy_level := some 10 }])
            - SmartLife.AnalyticsService.avg (SmartLife.AnalyticsService.first_half
              [{ timestamp := 0, energy_level := some 1 },
               { timestamp := 1, energy_level := some 10 }])
            > 1 / 2
       then "increasing"
       else if SmartLife.AnalyticsService.avg (SmartLife.AnalyticsService.second_half
              [{ timestamp := 0, energy_level := some 1 },
               { timestamp := 1, energy_level := some 10 }])
            - SmartLife.AnalyticsService.avg (SmartLife.AnalyticsService.first_half
              [{ timestamp := 0, energy_level := some 1 },
               { timestamp := 1, energy_level := some 10 }])
            < -(1 / 2)
       then "decreasing"
       else "stable") :=
  ⟨⟨by decide, by decide, by decide⟩,
   (C4_energy_trend_amended
      [{ timestamp := 0, energy_level := some 1 },
       { timestamp := 1, energy_level := some 10 }]).2
     (by decide) (by decide) (by decide)⟩

/-! ## C5 -/

/-- C5: `15-01-2026` parses to 15 January 2026 at midnight and
`15-01-2026 14:30` to the same day at 14:30; the invalid calendar date
`31-02-2026` is rejected with a re-prompt in the same conversation state
and the stored user data is returned untouched; and any parsed deadline
strictly before `now` is rejected with a re-prompt, the user data again
untouched. -/
theorem C5_custom_deadline_step :
    (SmartLife.strptime_dmy "15-01-2026".toList
      = some { year := 2026, month := 1, day := 15, hour := 0, minute := 0 }) ∧
    (SmartLife.strptime_dmy_hm "15-01-2026 14:30".toList
      = some { year := 2026, month := 1, day := 15, hour := 14, minute := 30 }) ∧
    (∀ (ud : SmartLife.UserData) (now : SmartLife.DateTime),
      ud.waiting_custom_deadline = true →
      SmartLife.TaskHandler.receive_custom_deadline ud now "31-02-2026"
        = (SmartLife.DeadlineReply.invalidFormat, ud,
           SmartLife.ConvState.WAITING_TASK_DEADLINE)) ∧
    (∀ (ud : SmartLife.UserData) (now d : SmartLife.DateTime) (text : String),
      ud.waiting_custom_deadline = true →
      (if (trimL text.toList).contains ' ' then SmartLife.strptime_dmy_hm (trimL text.toList)
       else SmartLife.strptime_dmy (trimL text.toList)) = some d →
      SmartLife.DateTime.lt d now = true →
      SmartLife.TaskHandler.receive_custom_deadline ud now text
        = (SmartLife.DeadlineReply.pastDeadline, ud,
           SmartLife.ConvState.WAITING_TASK_DEADLINE)) := by
  refine ⟨by decide, by decide, ?_, ?_⟩
  · intro ud now h
    unfold SmartLife.TaskHandler.receive_custom_deadline
    rw [h]
    rfl
  · intro ud now d text h hparse hlt
    unfold SmartLife.TaskHandler.receive_custom_deadline
    rw [h]
    simp only []
    rw [hparse]
    simp [hlt]

/-- Witness for C5: with the waiting flag set, the invalid calendar date
`31-02-2026` re-prompts leaving the user data untouched, and the
well-formed but past date `01-01-2020` (relative to 1 January 2026) is
rejected as a past deadline, also leaving the user data untouched. -/
theorem C5_custom_deadline_step_witness :
    (SmartLife.TaskHandler.receive_custom_deadline
        { waiting_custom_deadline := true }
        { year := 2026, month := 1, day := 1, hour := 0, minute := 0 } "31-02-2026"
      = (SmartLife.DeadlineReply.invalidFormat, { waiting_custom_deadline := true },
         SmartLife.ConvState.WAITING_TASK_DEADLINE)) ∧
    (SmartLife.TaskHandler.receive_custom_deadline
        { waiting_custom_deadline := true }
        { year := 2026, month := 1, day := 1, hour := 0, minute := 0 } "01-01-2020"
      = (SmartLife.DeadlineReply.pastDeadline, { waiting_custom_deadline := true },
         SmartLife.ConvState.WAITING_TASK_DEADLINE)) := by
  constructor
  · exact C5_custom_deadline_step.2.2.1 { waiting_custom_deadline := true }
      { year := 2026, month := 1, day := 1, hour := 0, minute := 0 } rfl
  · exact C5_custom_deadline_step.2.2.2 { waiting_custom_deadline := true }
      { year := 2026, month := 1, day := 1, hour := 0, minute := 0 }
      { year := 2020, month := 1, day := 1, hour := 0, minute := 0 } "01-01-2020"
      rfl (by decide) (by decide)

/-! ## C9 -/

/-- C9: whenever the chat-completion request errors or its reply fails to
parse as JSON, `process_text_with_ai` returns (it is total, so it cannot
raise) the fallback that carries the entire original input verbatim as an
idea of category `General`, dated today, with no time. -/
theorem C9_classifier_fallback (user_text today : String)
    (parse_json : String → Except String Aqlli.AiResult) :
    (∀ err : String,
      Aqlli.process_text_with_ai user_text today (Except.error err) parse_json
        = { type := "idea", content := user_text, description := none,
            date := today, time := none, category := "General" }) ∧
    (∀ body err, parse_json body = Except.error err →
      Aqlli.process_text_with_ai user_text today (Except.ok body) parse_json
        = { type := "idea", content := user_text, description := none,
            date := today, time := none, category := "General" }) := by
  constructor
  · intro err
    rfl
  · intro body err h
    simp [Aqlli.process_text_with_ai, Except.bind, h]

/-- Witness for C9: a failed request and a non-JSON reply both map the
input "sut olish kerak" to the idea/General fallback. -/
theorem C9_classifier_fallback_witness :
    (Aqlli.process_text_with_ai "sut olish kerak" "2026-10-12"
        (Except.error "request timed out") (fun _ => Except.error "invalid JSON")
      = { type := "idea", content := "sut olish kerak", description := none,
          date := "2026-10-12", time := none, category := "General" }) ∧
    (Aqlli.process_text_with_ai "sut olish kerak" "2026-10-12"
        (Except.ok "not a json object") (fun _ => Except.error "invalid JSON")
      = { type := "idea", content := "sut olish kerak", description := none,
          date := "2026-10-12", time := none, category := "General" }) := by
  constructor
  · exact (C9_classifier_fallback "sut olish kerak" "2026-10-12"
      (fun _ => Except.error "invalid JSON")).1 "request timed out"
  · exact (C9_classifier_fallback "sut olish kerak" "2026-10-12"
      (fun _ => Except.error "invalid JSON")).2 "not a json object" "invalid JSON" rfl

/-! ## C6 -/

/-- If `pat` does not occur in `s`, the Python-count scan finds nothing,
whatever the fuel. -/
theorem pyCountAux_eq_zero (pat : List Char) (fuel : Nat) :
    ∀ s : List Char, containsL pat s = false → pyCountAux pat fuel s = 0 := by
  induction fuel with
  | zero => intro s h; rfl
  | succ fuel ih =>
    intro s h
    cases s with
    | nil => rfl
    | cons c rest =>
      rw [containsL, Bool.or_eq_false_iff] at h
      simp only [pyCountAux, h.1, if_false]
      exact ih rest h.2

/-- `s.count(pat) = 0` when `pat` does not occur in `s`. -/
theorem pyCount_eq_zero (s pat : List Char) (h : containsL pat s = false) :
    pyCount s pat = 0 := by
  have hne : pat ≠ [] := by
    intro he
    subst he
    cases s <;> simp [containsL] at h
  simp only [pyCount, hne, if_false]
  exact pyCountAux_eq_zero pat s.length s h

/-- A note titled exactly "Python" whose content does not mention the
query scores exactly 10 for query "Python" with no tag filter. -/
theorem relevance_exact_title (c : String) (cat tg : Option String) (cr u : Nat)
    (h : SmartLife.containsCI c "Python" = false) :
    SmartLife.NoteService.calculate_relevance
      { id := 1, user_id := 1, title := "Python", content := c, category := cat,
        tags := tg, created_at := cr, updated_at := u } "Python" none = 10 := by
  have hc : pyCount (lowerL c.toList) (lowerL "Python".toList) = 0 := pyCount_eq_zero _ _ h
  cases tg <;>
    · simp only [SmartLife.NoteService.calculate_relevance, hc]
      norm_num

/-- A note titled "My Python Notes" whose content does not mention the
query scores exactly 5 for query "Python" with no tag filter. -/
theorem relevance_substring_title (c : String) (cat tg : Option String) (cr u : Nat)
    (h : SmartLife.containsCI c "Python" = false) :
    SmartLife.NoteService.calculate_relevance
      { id := 2, user_id := 1, title := "My Python Notes", content := c, category := cat,
        tags := tg, created_at := cr, updated_at := u } "Python" none = 5 := by
  have hc : pyCount (lowerL c.toList) (lowerL "Python".toList) = 0 := pyCount_eq_zero _ _ h
  cases tg <;>
    · simp only [SmartLife.NoteService.calculate_relevance, hc]
      norm_num
      rw [if_neg (by decide), if_pos (by decide)]

/-- C6: for a user with three notes titled exactly "Python",
"My Python Notes" and "JavaScript", none of whose contents mention the
query, searching "Python" (no tag filter, as the handler passes for a
query without `#` tokens) returns the exact-title note strictly ahead of
the substring-title note — scores 10 versus 5 under descending-score
ordering — and the "JavaScript" note is absent whatever its tags, since
only title/content matching can admit it. -/
theorem C6_note_search_ranking
    (c₁ c₂ c₃ : String) (cat₁ cat₂ cat₃ tg₁ tg₂ tg₃ : Option String)
    (cr₁ cr₂ cr₃ u₁ u₂ u₃ : Nat)
    (h₁ : SmartLife.containsCI c₁ "Python" = false)
    (h₂ : SmartLife.containsCI c₂ "Python" = false)
    (h₃ : SmartLife.containsCI c₃ "Python" = false) :
    (SmartLife.NoteService.search_notes
        [{ id := 1, user_id := 1, title := "Python", content := c₁, category := cat₁,
           tags := tg₁, created_at := cr₁, updated_at := u₁ },
         { id := 2, user_id := 1, title := "My Python Notes", content := c₂, category := cat₂,
           tags := tg₂, created_at := cr₂, updated_at := u₂ },
         { id := 3, user_id := 1, title := "JavaScript", content := c₃, category := cat₃,
           tags := tg₃, created_at := cr₃, updated_at := u₃ }]
        1 "Python" none none 20).map (fun r => r.id) = [1, 2] := by
  have e₁ : SmartLife.containsCI "Python" "Python" = true := by decide
  have e₂ : SmartLife.containsCI "My Python Notes" "Python" = true := by decide
  have e₃ : SmartLife.containsCI "JavaScript" "Python" = false := by decide
  have hq : ("Python" : String) ≠ "" := by decide
  have d₁ : decide ((5 : ℚ) ≤ 10) = true := decide_eq_true (by norm_num)
  have d₂ : decide ((10 : ℚ) ≤ 5) = false := decide_eq_false (by norm_num)
  have r₁ := relevance_exact_title c₁ cat₁ tg₁ cr₁ u₁ h₁
  have r₂ := relevance_substring_title c₂ cat₂ tg₂ cr₂ u₂ h₂
  have hfound : SmartLife.DatabaseManager.search_notes
      [{ id := 1, user_id := 1, title := "Python", content := c₁, category := cat₁,
         tags := tg₁, created_at := cr₁, updated_at := u₁ },
       { id := 2, user_id := 1, title := "My Python Notes", content := c₂, category := cat₂,
         tags := tg₂, created_at := cr₂, updated_at := u₂ },
       { id := 3, user_id := 1, title := "JavaScript", content := c₃, category := cat₃,
         tags := tg₃, created_at := cr₃, updated_at := u₃ }] 1 "Python" none none 20
      = (sortStable (fun a b => decide (b.updated_at ≤ a.updated_at))
          [{ id := 1, user_id := 1, title := "Python", content := c₁, category := cat₁,
             tags := tg₁, created_at := cr₁, updated_at := u₁ },
           { id := 2, user_id := 1, title := "My Python Notes", content := c₂, category := cat₂,
             tags := tg₂, created_at := cr₂, updated_at := u₂ }]).take 20 := by
    unfold SmartLife.DatabaseManager.search_notes
    simp [hq, e₁, e₂, e₃, h₁, h₂, h₃]
  unfold SmartLife.NoteService.search_notes
  rw [hfound]
  by_cases hu : u₂ ≤ u₁
  · have hsorted : sortStable (fun a b : SmartLife.Note => decide (b.updated_at ≤ a.updated_at))
        [{ id := 1, user_id := 1, title := "Python", content := c₁, category := cat₁,
           tags := tg₁, created_at := cr₁, updated_at := u₁ },
         { id := 2, user_id := 1, title := "My Python Notes", content := c₂, category := cat₂,
           tags := tg₂, created_at := cr₂, updated_at := u₂ }]
        = [{ id := 1, user_id := 1, title := "Python", content := c₁, category := cat₁,
             tags := tg₁, created_at := cr₁, updated_at := u₁ },
           { id := 2, user_id := 1, title := "My Python Notes", content := c₂, category := cat₂,
             tags := tg₂, created_at := cr₂, updated_at := u₂ }] := by
      simp [sortStable, insertStable, hu]
    rw [hsorted]
    simp [List.take, r₁, r₂, sortStable, insertStable, d₁, d₂]
  · have hsorted : sortStable (fun a b : SmartLife.Note => decide (b.updated_at ≤ a.updated_at))
        [{ id := 1, user_id := 1, title := "Python", content := c₁, category := cat₁,
           tags := tg₁, created_at := cr₁, updated_at := u₁ },
         { id := 2, user_id := 1, title := "My Python Notes", content := c₂, category := cat₂,
           tags := tg₂, created_at := cr₂, updated_at := u₂ }]
        = [{ id := 2, user_id := 1, title := "My Python Notes", content := c₂, category := cat₂,
             tags := tg₂, created_at := cr₂, updated_at := u₂ },
           { id := 1, user_id := 1, title := "Python", content := c₁, category := cat₁,
             tags := tg₁, created_at := cr₁, updated_at := u₁ }] := by
      simp [sortStable, insertStable, hu]
    rw [hsorted]
    simp [List.take, r₁, r₂, sortStable, insertStable, d₁, d₂]

/-- Witness for C6 at concrete notes (the "JavaScript" note even carries a
`python` tag, which cannot admit it since the database filter only checks
title and content): the search returns ids [1, 2], exact-title first. -/
theorem C6_note_search_ranking_witness :
    (SmartLife.containsCI "Notes on snakes" "Python" = false ∧
     SmartLife.containsCI "Syntax summary" "Python" = false ∧
     SmartLife.containsCI "Callbacks and promises" "Python" = false) ∧
    (SmartLife.NoteService.search_notes
        [{ id := 1, user_id := 1, title := "Python", content := "Notes on snakes",
           category := none, tags := none, created_at := 0, updated_at := 5 },
         { id := 2, user_id := 1, title := "My Python Notes", content := "Syntax summary",
           category := some "Study", tags := none, created_at := 0, updated_at := 9 },
         { id := 3, user_id := 1, title := "JavaScript", content := "Callbacks and promises",
           category := none, tags := some "python", created_at := 0, updated_at := 1 }]
        1 "Python" none none 20).map (fun r => r.id) = [1, 2] :=
  ⟨⟨by decide, by decide, by decide⟩,
   C6_note_search_ranking "Notes on snakes" "Syntax summary" "Callbacks and promises"
     none (some "Study") none none none (some "python") 0 0 0 5 9 1
     (by decide) (by decide) (by decide)⟩

/-! ## C7 -/

/-- Every slot emitted by the inner hour loop starts no earlier than the
loop's starting point, spans exactly the requested duration, fits inside
the working window, and overlaps no busy interval. -/
theorem slot_loop_mem (busy : List SmartLife.BusySlot) (durMin work_end : Nat) :
    ∀ (fuel slot_start : Nat) (s : SmartLife.FreeSlot),
      s ∈ SmartLife.CalendarService.slot_loop busy durMin work_end fuel slot_start →
      slot_start ≤ s.start ∧ s.end_ = s.start + durMin ∧ s.start + durMin ≤ work_end ∧
      ∀ b ∈ busy, ¬(s.start < b.end_ ∧ s.end_ > b.start) := by
  intro fuel
  induction fuel with
  | zero =>
    intro ss s hs
    simp [SmartLife.CalendarService.slot_loop] at hs
  | succ fuel ih =>
    intro ss s hs
    rw [SmartLife.CalendarService.slot_loop] at hs
    by_cases hcond : ss + durMin ≤ work_end
    · rw [if_pos hcond] at hs
      simp only [List.mem_append] at hs
      rcases hs with hs | hs
      · by_cases hfree :
          busy.all (fun b => !(decide (ss < b.end_) && decide (ss + durMin > b.start))) = true
        · rw [if_pos hfree] at hs
          simp only [List.mem_singleton] at hs
          subst hs
          refine ⟨le_refl _, rfl, hcond, ?_⟩
          intro b hb
          have hball := List.all_eq_true.mp hfree b hb
          simp only [Bool.not_eq_true', Bool.and_eq_false_iff, decide_eq_false_iff_not,
            decide_eq_true_eq] at hball
          rcases hball with hb1 | hb2
          · exact fun hcontra => hb1 hcontra.1
          · exact fun hcontra => hb2 hcontra.2
        · rw [if_neg hfree] at hs
          simp at hs
      · have h := ih (ss + 60) s hs
        exact ⟨by omega, h.2.1, h.2.2.1, h.2.2.2⟩
    · rw [if_neg hcond] at hs
      simp at hs

/-- Every slot emitted by the outer day loop overlaps no busy interval,
falls on a weekday, starts at or after 09:00 of its day, ends by 18:00 of
its day, and spans exactly the requested duration. -/
theorem day_loop_mem (busy : List SmartLife.BusySlot) (durMin : Nat) :
    ∀ (days current_date : Nat) (s : SmartLife.FreeSlot),
      s ∈ SmartLife.CalendarService.day_loop busy durMin days current_date →
      (∀ b ∈ busy, ¬(s.start < b.end_ ∧ s.end_ > b.start)) ∧
      (s.start / 1440) % 7 < 5 ∧ 540 ≤ s.start % 1440 ∧
      s.end_ ≤ (s.start / 1440) * 1440 + 1080 ∧ s.end_ = s.start + durMin := by
  intro days
  induction days with
  | zero =>
    intro cd s hs
    simp [SmartLife.CalendarService.day_loop] at hs
  | succ days ih =>
    intro cd s hs
    rw [SmartLife.CalendarService.day_loop] at hs
    simp only [List.mem_append] at hs
    rcases hs with hs | hs
    · by_cases hw : (cd / 1440) % 7 ≥ 5
      · rw [if_pos hw] at hs
        simp at hs
      · rw [if_neg hw] at hs
        obtain ⟨hstart, hend, hbound, hfree⟩ := slot_loop_mem busy durMin _ 10 _ s hs
        have hday : s.start / 1440 = cd / 1440 := by omega
        refine ⟨hfree, ?_, ?_, ?_, hend⟩
        · rw [hday]
          omega
        · omega
        · rw [hday]
          omega
    · exact ih (cd + 1440) s hs

/-- C7: with a one-hour duration over the 7-day lookahead, every returned
slot avoids every busy interval (half-open overlap), falls on a weekday,
lies within the 09:00–18:00 working window of its day and spans exactly
one hour; at most 10 slots are returned. -/
theorem C7_free_slots_safety (busy : List SmartLife.BusySlot) (now : Nat) :
    (∀ s ∈ SmartLife.CalendarService.find_free_slots busy now 1 7,
      (∀ b ∈ busy, ¬(s.start < b.end_ ∧ s.end_ > b.start)) ∧
      (s.start / 1440) % 7 < 5 ∧ 540 ≤ s.start % 1440 ∧
      s.end_ ≤ (s.start / 1440) * 1440 + 1080 ∧ s.end_ = s.start + 60) ∧
    (SmartLife.CalendarService.find_free_slots busy now 1 7).length ≤ 10 := by
  constructor
  · intro s hs
    simp only [SmartLife.CalendarService.find_free_slots] at hs
    exact day_loop_mem busy (1 * 60) 7 _ s (List.mem_of_mem_take hs)
  · simp only [SmartLife.CalendarService.find_free_slots]
    exact List.length_take_le 10 _

/-- Witness for C7: one busy event 10:00–11:00 on the Monday of day 0; the
09:00–10:00 slot is returned, it does not overlap the busy hour, and at
most 10 slots come back. -/
theorem C7_free_slots_safety_witness :
    ({ start := 540, end_ := 600 } : SmartLife.FreeSlot)
        ∈ SmartLife.CalendarService.find_free_slots [{ start := 600, end_ := 660 }] 0 1 7 ∧
    ¬((540 : Nat) < 660 ∧ (600 : Nat) > 600) ∧
    (SmartLife.CalendarService.find_free_slots [{ start := 600, end_ := 660 }] 0 1 7).length
      ≤ 10 := by
  refine ⟨by decide, ?_, ?_⟩
  · exact ((C7_free_slots_safety [{ start := 600, end_ := 660 }] 0).1
      { start := 540, end_ := 600 } (by decide)).1 { start := 600, end_ := 660 } (by decide)
  · exact (C7_free_slots_safety [{ start := 600, end_ := 660 }] 0).2

/-! ## C10 -/

/-- With no busy events and a weekday as scan start, the very first slot
the scan emits is 09:00–10:00 of the scan-start day. -/
theorem day_loop_head_eq (cd : Nat) (hw : ¬ (cd / 1440) % 7 ≥ 5) :
    ∃ t, SmartLife.CalendarService.day_loop [] 60 7 cd
      = ({ start := (cd / 1440) * 1440 + 540, end_ := (cd / 1440) * 1440 + 600 } :
          SmartLife.FreeSlot) :: t := by
  rw [show (7 : Nat) = 6 + 1 from rfl, SmartLife.CalendarService.day_loop, if_neg hw,
      show (10 : Nat) = 9 + 1 from rfl, SmartLife.CalendarService.slot_loop]
  rw [if_pos (by omega : (cd / 1440) * 1440 + 9 * 60 + 60 ≤ (cd / 1440) * 1440 + 18 * 60)]
  exact ⟨_, rfl⟩

/-- C10 (implicit behaviour): the scan always begins at 09:00 of the
invocation day, so when invoked on a weekday strictly after 10:00 with no
busy events, the returned list contains a slot that starts strictly
before the invocation time — already-past slots are not excluded. -/
theorem C10_scan_includes_past_slots (now : Nat)
    (hwd : (now / 1440) % 7 < 5) (ht : 600 < now % 1440) :
    ∃ s ∈ SmartLife.CalendarService.find_free_slots [] now 1 7, s.start < now := by
  have hw : ¬ ((((now / 1440) * 1440 + 540) / 1440) % 7 ≥ 5) := by
    have : ((now / 1440) * 1440 + 540) / 1440 = now / 1440 := by omega
    rw [this]
    omega
  obtain ⟨t, hteq⟩ := day_loop_head_eq ((now / 1440) * 1440 + 540) hw
  have hday : (((now / 1440) * 1440 + 540) / 1440) = now / 1440 := by omega
  refine ⟨{ start := (now / 1440) * 1440 + 540, end_ := (now / 1440) * 1440 + 600 }, ?_, ?_⟩
  · show _ ∈ (SmartLife.CalendarService.day_loop [] 60 7
      ((now / 1440) * 1440 + 540)).take 10
    rw [hteq, hday, show (10 : Nat) = 9 + 1 from rfl, List.take_succ_cons]
    exact List.mem_cons_self _ _
  · show (now / 1440) * 1440 + 540 < now
    omega

/-- Witness for C10 at `now = 660` (day 0, a Monday, at 11:00): the slot
list contains a slot starting before 11:00. -/
theorem C10_scan_includes_past_slots_witness :
    (660 / 1440) % 7 < 5 ∧ 600 < 660 % 1440 ∧
    ∃ s ∈ SmartLife.CalendarService.find_free_slots [] 660 1 7, s.start < 660 :=
  ⟨by decide, by decide, C10_scan_includes_past_slots 660 (by decide) (by decide)⟩

/-! ## C8 -/

/-- Loop invariant of the poller's pass: the cycle's messages stay
duplicate-free, never mention an id that was already in the sent-set when
the cycle began, and the accumulated set is exactly the starting set
followed by the cycle's messages. -/
theorem reminderFold_inv (now : Int) (sent₀ : List String)
    (events : List Aqlli.CalEvent) :
    ∀ acc : List String × List String,
      acc.1.Nodup → (∀ id ∈ sent₀, id ∉ acc.1) → acc.2 = sent₀ ++ acc.1 →
      ((events.foldl (Aqlli.reminderStep now) acc).1.Nodup ∧
       (∀ id ∈ sent₀, id ∉ (events.foldl (Aqlli.reminderStep now) acc).1) ∧
       (events.foldl (Aqlli.reminderStep now) acc).2
          = sent₀ ++ (events.foldl (Aqlli.reminderStep now) acc).1) := by
  induction events with
  | nil =>
    intro acc h1 h2 h3
    exact ⟨h1, h2, h3⟩
  | cons e es ih =>
    intro acc h1 h2 h3
    rw [List.foldl_cons]
    have hstep : (Aqlli.reminderStep now acc e).1.Nodup ∧
        (∀ id ∈ sent₀, id ∉ (Aqlli.reminderStep now acc e).1) ∧
        (Aqlli.reminderStep now acc e).2 = sent₀ ++ (Aqlli.reminderStep now acc e).1 := by
      unfold Aqlli.reminderStep
      by_cases hwin : 0 ≤ e.start_seconds - now ∧ e.start_seconds - now ≤ 300
      · rw [if_pos hwin]
        by_cases hc : acc.2.contains e.id = true
        · rw [if_pos hc]
          exact ⟨h1, h2, h3⟩
        · rw [if_neg hc]
          have hnm : e.id ∉ acc.2 := fun hmem => hc (List.elem_iff.mpr hmem)
          rw [h3] at hnm
          simp only [List.mem_append] at hnm
          push_neg at hnm
          refine ⟨?_, ?_, ?_⟩
          · simp [List.nodup_append, h1, List.disjoint_singleton, hnm.2]
          · intro id hid
            simp only [List.mem_append, List.mem_singleton]
            push_neg
            exact ⟨h2 id hid, fun he => hnm.1 (he ▸ hid)⟩
          · rw [h3, List.append_assoc]
      · rw [if_neg hwin]
        exact ⟨h1, h2, h3⟩
    exact ih _ hstep.1 hstep.2.1 hstep.2.2

/-- One poll cycle: its messages are duplicate-free, avoid every id
already in the sent-set, and the set afterwards (before the size check)
is the old set plus exactly the new messages. -/
theorem pollFold_props (sent : List String) (events : List Aqlli.CalEvent) (now : Int) :
    (Aqlli.pollFold sent events now).1.Nodup ∧
    (∀ id ∈ sent, id ∉ (Aqlli.pollFold sent events now).1) ∧
    (Aqlli.pollFold sent events now).2 = sent ++ (Aqlli.pollFold sent events now).1 :=
  reminderFold_inv now sent events ([], sent) List.nodup_nil (by simp) (by simp)

/-- C8: across any run of poll cycles in which the wholesale clear never
fires (the accumulated set stays at or below 100 ids after every cycle),
each calendar-event id is notified at most once — the concatenated
message list has no duplicate id and never re-mentions an id already in
the set when the run began. -/
theorem C8_reminder_at_most_once (cycles : List (List Aqlli.CalEvent × Int)) :
    ∀ sent₀ : List String, Aqlli.noClearRun sent₀ cycles = true →
      (Aqlli.run_reminder_polls sent₀ cycles).1.Nodup ∧
      ∀ id ∈ sent₀, id ∉ (Aqlli.run_reminder_polls sent₀ cycles).1 := by
  induction cycles with
  | nil =>
    intro sent₀ _
    simp [Aqlli.run_reminder_polls]
  | cons c rest ih =>
    obtain ⟨events, now⟩ := c
    intro sent₀ hnoclear
    rw [Aqlli.noClearRun, Bool.and_eq_true] at hnoclear
    have hlen : (Aqlli.pollFold sent₀ events now).2.length ≤ 100 :=
      of_decide_eq_true hnoclear.1
    have hprops := pollFold_props sent₀ events now
    have hcheck : Aqlli.check_calendar_reminders sent₀ events now
        = ((Aqlli.pollFold sent₀ events now).1, (Aqlli.pollFold sent₀ events now).2) := by
      unfold Aqlli.check_calendar_reminders
      show ((Aqlli.pollFold sent₀ events now).1,
          if (Aqlli.pollFold sent₀ events now).2.length > 100 then []
          else (Aqlli.pollFold sent₀ events now).2) = _
      rw [if_neg (by omega : ¬ (Aqlli.pollFold sent₀ events now).2.length > 100)]
    have hrest := ih (Aqlli.pollFold sent₀ events now).2 hnoclear.2
    rw [hprops.2.2] at hrest
    rw [Aqlli.run_reminder_polls, hcheck]
    rw [hprops.2.2]
    constructor
    · rw [List.nodup_append]
      refine ⟨hprops.1, hrest.1, ?_⟩
      intro id hid
      exact hrest.2 id (List.mem_append_right _ hid)
    · intro id hid
      simp only [List.mem_append]
      push_neg
      exact ⟨hprops.2.1 id hid, hrest.2 id (List.mem_append_left _ hid)⟩

/-- Witness for C8: the same event id seen within the 5-minute window in
two consecutive cycles is notified only in the first; the run's message
list is exactly one notification and is duplicate-free. -/
theorem C8_reminder_at_most_once_witness :
    Aqlli.noClearRun []
        [([{ id := "ev1", start_seconds := 100 }], 0),
         ([{ id := "ev1", start_seconds := 100 }], 60)] = true ∧
    (Aqlli.run_reminder_polls []
        [([{ id := "ev1", start_seconds := 100 }], 0),
         ([{ id := "ev1", start_seconds := 100 }], 60)]).1 = ["ev1"] ∧
    (Aqlli.run_reminder_polls []
        [([{ id := "ev1", start_seconds := 100 }], 0),
         ([{ id := "ev1", start_seconds := 100 }], 60)]).1.Nodup :=
  ⟨by decide, by decide,
   (C8_reminder_at_most_once
      [([{ id := "ev1", start_seconds := 100 }], 0),
       ([{ id := "ev1", start_seconds := 100 }], 60)] [] (by decide)).1⟩
